import Mathlib

/-! Shallow embedding of the camera control core of NLC-Receiver
(src/nlc-receiver/camera.cpp).  Member functions of class Camera become Lean
functions over an explicit state record.  Each call into the dc1394 driver may
succeed or fail at the hardware, so every embedded operation takes one Bool
per driver call site, in program order, where `true` stands for
DC1394_SUCCESS.  A C++ `throw` is modelled by returning `some e` in the
`error` field; state mutations performed before the throw are kept, exactly as
in the source.  Every driver call site also appends an event to a trace, so
that ordering claims can be stated and checked. -/

namespace Camera

/-- Events recording the dc1394 driver calls (and the sink call) that the
source performs, in program order. -/
inductive Ev
  | setTransOff
  | setTransOn
  | captureStop
  | captureSetup
  | dequeue
  | enqueue
  | cameraFree
  | applyBusSpeed
  | applyResolution
  | applyFrameRate
  | showImage
deriving DecidableEq

/-- The state of one `Camera` object together with the device-side state the
driver calls act on.  `isDeviceOpened`, `isTransmitting` and
`isCapturingVideo` are the members of class Camera (camera.cpp line 14,
line 147).  `devTransmitting` is the hardware isochronous-transmission state,
`devCaptureSetup` whether the DMA capture ring is allocated, `freeCount` how
many times `dc1394_camera_free` has been invoked on the handle, and
`outstanding` the number of dequeued-but-not-yet-re-enqueued DMA buffers. -/
structure CamState where
  isDeviceOpened : Bool
  isTransmitting : Bool
  isCapturingVideo : Bool
  devTransmitting : Bool
  devCaptureSetup : Bool
  freeCount : Nat
  outstanding : Nat
deriving DecidableEq

/-- One value per `throw` site of camera.cpp.  `dequeueFailed` and
`enqueueFailed` are the two throw sites of `grabFrame` (the spec's
FrameGrabError); `busSpeedFailed`, `resolutionFailed`, `frameRateFailed` and
`unknownParameter` are the throw sites of `setParameter` (the spec's
ConfigurationError and InvalidParameterError). -/
inductive CamError
  | stopAcquisitionFailed
  | stopTransmissionFailed
  | busSpeedFailed
  | resolutionFailed
  | frameRateFailed
  | unknownParameter
  | captureSetupFailed
  | startTransmissionFailed
  | dequeueFailed
  | enqueueFailed
deriving DecidableEq

/-- Result of running one member function: the state when the function
returns or throws, the trace of driver calls it made, and the thrown error if
any (`none` = normal return). -/
structure Res where
  state : CamState
  trace : List Ev
  error : Option CamError
deriving DecidableEq

/-- Camera::freeCamera (camera.cpp lines 229-231): `dc1394_camera_free`.
Note that it does NOT touch `isDeviceOpened`. -/
def freeCamera (s : CamState) : CamState :=
  { s with freeCount := s.freeCount + 1 }

/-- Camera::stopTransmission (camera.cpp lines 204-210):
`dc1394_video_set_transmission(camHandle, DC1394_OFF)`; on failure throws
"Failed to stop the transmission", on success clears `isTransmitting`. -/
def stopTransmission (okOff : Bool) (s : CamState) : Res :=
  if okOff then
    ⟨{ s with devTransmitting := false, isTransmitting := false }, [.setTransOff], none⟩
  else
    ⟨s, [.setTransOff], some .stopTransmissionFailed⟩

/-- Camera::stopAcquisition (camera.cpp lines 184-192):
`dc1394_capture_stop` first (releases the DMA capture ring); on its failure
throws "Failed to stop the acquisition session"; otherwise calls
`stopTransmission()`. -/
def stopAcquisition (okStop okOff : Bool) (s : CamState) : Res :=
  if okStop then
    let r := stopTransmission okOff { s with devCaptureSetup := false }
    ⟨r.state, .captureStop :: r.trace, r.error⟩
  else
    ⟨s, [.captureStop], some .stopAcquisitionFailed⟩

/-- Camera::startTransmission (camera.cpp lines 194-202):
`dc1394_video_set_transmission(camHandle, DC1394_ON)`; on failure calls
`stopAcquisition()` then `freeCamera()` then throws; on success sets
`isTransmitting`.  If the nested `stopAcquisition()` itself throws, that
exception propagates and `freeCamera()` is not reached. -/
def startTransmission (okOn okStop okOff : Bool) (s : CamState) : Res :=
  if okOn then
    ⟨{ s with devTransmitting := true, isTransmitting := true }, [.setTransOn], none⟩
  else
    let r := stopAcquisition okStop okOff s
    match r.error with
    | some e => ⟨r.state, .setTransOn :: r.trace, some e⟩
    | none => ⟨freeCamera r.state, .setTransOn :: (r.trace ++ [.cameraFree]),
               some .startTransmissionFailed⟩

/-- Camera::startAcquisition (camera.cpp lines 131-140):
`dc1394_capture_setup`; on failure calls `freeCamera()` and throws; on
success calls `startTransmission()`. -/
def startAcquisition (okSetup okOn okStop okOff : Bool) (s : CamState) : Res :=
  if okSetup then
    let r := startTransmission okOn okStop okOff { s with devCaptureSetup := true }
    ⟨r.state, .captureSetup :: r.trace, r.error⟩
  else
    ⟨freeCamera s, [.captureSetup, .cameraFree], some .captureSetupFailed⟩

/-- Camera::close (camera.cpp lines 51-60): if `isTransmitting`, calls
`stopAcquisition()` (whose exception, if any, propagates out of close before
`isTransmitting` is cleared) and clears the flag; then, if `isDeviceOpened`,
calls `freeCamera()` and clears the flag. -/
def close (okStop okOff : Bool) (s : CamState) : Res :=
  if s.isTransmitting then
    let r := stopAcquisition okStop okOff s
    match r.error with
    | some e => ⟨r.state, r.trace, some e⟩
    | none =>
      let s1 := { r.state with isTransmitting := false }
      if s1.isDeviceOpened then
        ⟨{ freeCamera s1 with isDeviceOpened := false }, r.trace ++ [.cameraFree], none⟩
      else
        ⟨s1, r.trace, none⟩
  else
    if s.isDeviceOpened then
      ⟨{ freeCamera s with isDeviceOpened := false }, [.cameraFree], none⟩
    else
      ⟨s, [], none⟩

/-- The tags of the variadic `setParameter` arguments (camera.cpp lines
70-72): the enum `Camera::Parameters` cases, plus `unknown` for an int that
is none of them (the `default:` branch). -/
inductive Param
  | busSpeed
  | resolution
  | frameRate
  | unknown
deriving DecidableEq

/-- The per-parameter loop of Camera::setParameter (camera.cpp lines 71-126).
Each entry carries the success flag of its driver call.  BusSpeed failure
throws without freeing (line 82); Resolution and FrameRate failure call
`freeCamera()` and then throw (lines 102-103 and 116-117); an unknown tag
throws `out_of_range` before any driver call (line 124). -/
def applyParams : List (Param × Bool) → CamState → Res
  | [], s => ⟨s, [], none⟩
  | (p, ok) :: rest, s =>
    match p with
    | .busSpeed =>
      if ok then
        let r := applyParams rest s
        ⟨r.state, .applyBusSpeed :: r.trace, r.error⟩
      else
        ⟨s, [.applyBusSpeed], some .busSpeedFailed⟩
    | .resolution =>
      if ok then
        let r := applyParams rest s
        ⟨r.state, .applyResolution :: r.trace, r.error⟩
      else
        ⟨freeCamera s, [.applyResolution, .cameraFree], some .resolutionFailed⟩
    | .frameRate =>
      if ok then
        let r := applyParams rest s
        ⟨r.state, .applyFrameRate :: r.trace, r.error⟩
      else
        ⟨freeCamera s, [.applyFrameRate, .cameraFree], some .frameRateFailed⟩
    | .unknown =>
      ⟨s, [], some .unknownParameter⟩

/-- The forced-stop preamble of Camera::setParameter (camera.cpp lines
66-67): `dc1394_video_set_transmission(camHandle, DC1394_OFF)` then
`dc1394_capture_stop(camHandle)`, with both return values DISCARDED: neither
failure is checked, no exception is possible here, and the member flag
`isTransmitting` is NOT updated.  On success each call changes only the
device-side state. -/
def setParameterPre (okOff okStop : Bool) (s : CamState) : CamState :=
  let s1 := if okOff then { s with devTransmitting := false } else s
  if okStop then { s1 with devCaptureSetup := false } else s1

/-- The whole of Camera::setParameter: the unchecked forced-stop preamble,
then the parameter loop. -/
def setParameter (okOff okStop : Bool) (ps : List (Param × Bool)) (s : CamState) : Res :=
  let r := applyParams ps (setParameterPre okOff okStop s)
  ⟨r.state, .setTransOff :: .captureStop :: r.trace, r.error⟩

/-- Camera::grabFrame (camera.cpp lines 151-169): `dc1394_capture_dequeue`
(on failure: `stopAcquisition(); freeCamera(); throw`), frame conversion,
then `dc1394_capture_enqueue` (on failure the same teardown and throw).  A
nested `stopAcquisition` exception propagates instead, skipping
`freeCamera`. -/
def grabFrame (okDeq okEnq okStop okOff : Bool) (s : CamState) : Res :=
  if okDeq then
    let s1 := { s with outstanding := s.outstanding + 1 }
    if okEnq then
      ⟨{ s1 with outstanding := s1.outstanding - 1 }, [.dequeue, .enqueue], none⟩
    else
      let r := stopAcquisition okStop okOff s1
      match r.error with
      | some e => ⟨r.state, .dequeue :: .enqueue :: r.trace, some e⟩
      | none => ⟨freeCamera r.state, .dequeue :: .enqueue :: (r.trace ++ [.cameraFree]),
                 some .enqueueFailed⟩
  else
    let r := stopAcquisition okStop okOff s
    match r.error with
    | some e => ⟨r.state, .dequeue :: r.trace, some e⟩
    | none => ⟨freeCamera r.state, .dequeue :: (r.trace ++ [.cameraFree]),
               some .dequeueFailed⟩

/-- N consecutive fully successful `grabFrame` calls. -/
def grabFrameN : Nat → CamState → CamState
  | 0, s => s
  | n + 1, s => grabFrameN n (grabFrame true true true true s).state

/-- Camera::grabVideo (camera.cpp lines 171-177), the body of the capture
thread, viewed sequentially with one oracle 4-tuple (dequeue, enqueue, and
the two teardown flags used on the error paths) per iteration; the list
length bounds the number of iterations considered.  The loop is
`while (isCapturingVideo) { frameViewer->showImage(grabFrame()); sleep; }`:
there is no try/catch, so an exception from `grabFrame` escapes the loop
(and the thread function) with `isCapturingVideo` left unchanged, and is
stored nowhere. -/
def grabVideo : List (Bool × Bool × Bool × Bool) → CamState → Res
  | [], s => ⟨s, [], none⟩
  | (okDeq, okEnq, okStop, okOff) :: rest, s =>
    if s.isCapturingVideo then
      let r := grabFrame okDeq okEnq okStop okOff s
      match r.error with
      | some e => ⟨r.state, r.trace, some e⟩
      | none =>
        let r2 := grabVideo rest r.state
        ⟨r2.state, r.trace ++ (.showImage :: r2.trace), r2.error⟩
    else
      ⟨s, [], none⟩

/-- Camera::stopCaptureVideo (camera.cpp lines 179-182), control-thread side:
clears `isCapturingVideo` (the join is modelled in the CaptureLoop
interleaving model below). -/
def stopCaptureVideo (s : CamState) : CamState :=
  { s with isCapturingVideo := false }

end Camera

/-! Interleaving model of the capture loop and its shutdown: the worker
thread spawned by `startCaptureVideo` runs `grabVideo`
(`while (isCapturingVideo) { frameViewer->showImage(grabFrame()); sleep; }`),
and the control thread runs `stopCaptureVideo`
(`isCapturingVideo = false; videoThread.join();`).  A configuration holds
the shared flag and one program counter per thread; `videoThread.join()` is
the semantics of std::thread::join: it completes only once the worker has
exited.  A schedule is a list of Booleans, `true` letting the worker move
and `false` the control thread; disabled threads stutter. -/

namespace CaptureLoop

/-- Worker program counter: about to test `isCapturingVideo`; about to call
`frameViewer->showImage(grabFrame())`; or exited the thread function. -/
inductive WPC
  | check
  | showing
  | exited
deriving DecidableEq

/-- Control-thread program counter inside `stopCaptureVideo`: about to clear
the flag; blocked in `videoThread.join()`; or returned from the call. -/
inductive MPC
  | clearFlag
  | joinW
  | returned
deriving DecidableEq

/-- Shared flag `isCapturingVideo` plus the two program counters. -/
structure Cfg where
  flag : Bool
  wpc : WPC
  mpc : MPC
deriving DecidableEq

/-- Observable labels of a step: a call to the sink `showImage`, the return
of `stopCaptureVideo`, or an internal step. -/
inductive Lbl
  | sink
  | stopRet
  | tick
deriving DecidableEq

/-- One worker step: test the flag, or perform the sink call, or stutter
after exit. -/
def wstep (c : Cfg) : Cfg × Lbl :=
  match c.wpc with
  | .check => if c.flag then ({ c with wpc := .showing }, .tick)
              else ({ c with wpc := .exited }, .tick)
  | .showing => ({ c with wpc := .check }, .sink)
  | .exited => (c, .tick)

/-- One control-thread step: clear the flag, or complete the join (enabled
only once the worker has exited), or stutter after returning. -/
def mstep (c : Cfg) : Cfg × Lbl :=
  match c.mpc with
  | .clearFlag => ({ c with flag := false, mpc := .joinW }, .tick)
  | .joinW => if c.wpc = .exited then ({ c with mpc := .returned }, .stopRet)
              else (c, .tick)
  | .returned => (c, .tick)

/-- Run a schedule from a configuration, collecting the label of each step. -/
def run : List Bool → Cfg → Cfg × List Lbl
  | [], c => (c, [])
  | b :: rest, c =>
    let p := if b then wstep c else mstep c
    let q := run rest p.1
    (q.1, p.2 :: q.2)

/-- No `sink` label occurs strictly after the first `stopRet` label. -/
def noSinkAfterRet : List Lbl → Bool
  | [] => true
  | .stopRet :: rest => rest.all (fun l => l != Lbl.sink)
  | _ :: rest => noSinkAfterRet rest

/-- The initial configuration while the loop is live and `stopCaptureVideo`
is entered: flag set, worker at the loop test, control thread about to clear
the flag. -/
def init : Cfg := ⟨true, WPC.check, MPC.clearFlag⟩

end CaptureLoop

open Camera CaptureLoop

/-! Helper lemmas (not tied to any single claim). -/

/-- A fully successful `grabFrame` leaves the camera state unchanged: the
dequeued buffer is re-enqueued before returning. -/
theorem grabFrame_ok_state (okStop okOff : Bool) (s : CamState) :
    (grabFrame true true okStop okOff s).state = s := rfl

/-- Iterating fully successful grabs is the identity on the state. -/
theorem grabFrameN_eq (n : Nat) (s : CamState) : grabFrameN n s = s := by
  induction n with
  | zero => rfl
  | succ n ih => simpa [grabFrameN, grabFrame_ok_state] using ih

/-- C1: the claim asserts that stopAcquisition stops transmission first and
releases the capture buffers second; in the source the order is the
opposite: `dc1394_capture_stop` (line 185) precedes the
`dc1394_video_set_transmission` OFF call made by `stopTransmission`
(line 189 calling line 205).  Concretely, from a Transmitting state the
trace is not transmission-off followed by capture-stop. -/
theorem C1_counterexample :
    ¬ ((stopAcquisition true true ⟨true, true, false, true, true, 0, 0⟩).trace
        = [Ev.setTransOff, Ev.captureStop]) := by decide

/-- C1 (amended): for every call to stopAcquisition whose first driver call
succeeds, the two teardown sub-steps run in the order: release the capture
buffers first (capture stop), then stop transmission. -/
theorem C1_amended_thm (okOff : Bool) (s : CamState) :
    (stopAcquisition true okOff s).trace = [Ev.captureStop, Ev.setTransOff] := by
  cases okOff <;> rfl

/-- C3: the claim asserts that a failing teardown sub-step is reported
without propagating past partial cleanup, with both sub-steps attempted and
the session stopped regardless.  In the source a failing
`dc1394_capture_stop` throws immediately (line 187): transmission stop is
never attempted, `isTransmitting` stays set, and the exception propagates. -/
theorem C3_counterexample :
    (stopAcquisition false true ⟨true, true, false, true, true, 0, 0⟩).state.isTransmitting
        = true ∧
    Ev.setTransOff ∉ (stopAcquisition false true ⟨true, true, false, true, true, 0, 0⟩).trace ∧
    (stopAcquisition false true ⟨true, true, false, true, true, 0, 0⟩).error
        = some CamError.stopAcquisitionFailed := by decide

/-- C3 (amended): failure of either teardown sub-step of stopAcquisition
propagates as an exception.  If releasing the capture buffers fails, the
state is returned unchanged, transmission stop is not attempted, and the
error is the capture-stop throw; if stopping transmission fails, the error
is the transmission throw and `isTransmitting` keeps its previous value, so
the session does not reach the stopped state. -/
theorem C3_amended_thm (okOff : Bool) (s : CamState) :
    stopAcquisition false okOff s
        = ⟨s, [Ev.captureStop], some CamError.stopAcquisitionFailed⟩ ∧
    (stopAcquisition true false s).error = some CamError.stopTransmissionFailed ∧
    (stopAcquisition true false s).state.isTransmitting = s.isTransmitting ∧
    (stopAcquisition true false s).trace = [Ev.captureStop, Ev.setTransOff] :=
  ⟨rfl, rfl, rfl, rfl⟩

/-- C2: evaluation of the capture loop at the failing input.  With
`isCapturingVideo` set and the dequeue failing in the first iteration, the
loop body's exception escapes `grabVideo` with the active flag
`isCapturingVideo` still true: the source clears the flag nowhere on this
path and stores the error nowhere, so nothing is delivered to the caller of
`stopCaptureVideo`; in C++ the exception leaving the thread function
terminates the process. -/
theorem C2_failing_eval :
    (grabVideo [(false, true, true, true)] ⟨true, true, true, true, true, 0, 0⟩).error
        = some CamError.dequeueFailed ∧
    (grabVideo [(false, true, true, true)] ⟨true, true, true, true, true, 0, 0⟩).state.isCapturingVideo
        = true := by decide

/-- C6: a failing dequeue (first conjunct) or a failing re-enqueue (second
conjunct) in grabFrame, with the nested teardown calls succeeding, stops
transmission and capture, releases the device resource once, and throws the
corresponding frame-grab error. -/
theorem C6_thm (okEnq : Bool) (s : CamState) :
    ((grabFrame false okEnq true true s).error = some CamError.dequeueFailed ∧
     (grabFrame false okEnq true true s).state.devTransmitting = false ∧
     (grabFrame false okEnq true true s).state.devCaptureSetup = false ∧
     (grabFrame false okEnq true true s).state.freeCount = s.freeCount + 1) ∧
    ((grabFrame true false true true s).error = some CamError.enqueueFailed ∧
     (grabFrame true false true true s).state.devTransmitting = false ∧
     (grabFrame true false true true s).state.devCaptureSetup = false ∧
     (grabFrame true false true true s).state.freeCount = s.freeCount + 1) :=
  ⟨⟨rfl, rfl, rfl, rfl⟩, ⟨rfl, rfl, rfl, rfl⟩⟩

/-- C7: a fully successful grabFrame dequeues and then re-enqueues its
buffer (trace) and returns the state unchanged, and after any number of
successful grabs the count of dequeued-but-unreturned buffers is still 0. -/
theorem C7_thm (okStop okOff : Bool) (n : Nat) (s : CamState)
    (h : s.outstanding = 0) :
    grabFrame true true okStop okOff s = ⟨s, [Ev.dequeue, Ev.enqueue], none⟩ ∧
    (grabFrameN n s).outstanding = 0 := by
  refine ⟨rfl, ?_⟩
  rw [grabFrameN_eq]
  exact h

/-- Witness for C7 at a concrete state with no outstanding buffers and three
successful grabs. -/
theorem C7_witness :
    (⟨true, true, false, true, true, 0, 0⟩ : CamState).outstanding = 0 ∧
    (grabFrame true true true true ⟨true, true, false, true, true, 0, 0⟩
        = ⟨⟨true, true, false, true, true, 0, 0⟩, [Ev.dequeue, Ev.enqueue], none⟩ ∧
     (grabFrameN 3 ⟨true, true, false, true, true, 0, 0⟩).outstanding = 0) :=
  ⟨by decide, C7_thm true true 3 ⟨true, true, false, true, true, 0, 0⟩ (by decide)⟩

/-- The parameter loop never touches the transmission flags, the
capture-setup flag or the open flag: only `freeCount` can change, through
the `freeCamera` calls on the Resolution and FrameRate failure branches. -/
theorem applyParams_flags (ps : List (Param × Bool)) (s : CamState) :
    (applyParams ps s).state.devTransmitting = s.devTransmitting ∧
    (applyParams ps s).state.isTransmitting = s.isTransmitting ∧
    (applyParams ps s).state.devCaptureSetup = s.devCaptureSetup ∧
    (applyParams ps s).state.isDeviceOpened = s.isDeviceOpened := by
  induction ps with
  | nil => exact ⟨rfl, rfl, rfl, rfl⟩
  | cons hd tl ih =>
    obtain ⟨p, ok⟩ := hd
    cases p <;> cases ok <;> simp [applyParams, freeCamera] <;> exact ih

/-- The forced-stop preamble of setParameter changes neither `freeCount` nor
`isDeviceOpened` nor `isTransmitting`, and when the transmission-off call
succeeds it clears the device transmission. -/
theorem setParameterPre_fields (okOff okStop : Bool) (s : CamState) :
    (setParameterPre okOff okStop s).freeCount = s.freeCount ∧
    (setParameterPre okOff okStop s).isDeviceOpened = s.isDeviceOpened ∧
    (setParameterPre okOff okStop s).isTransmitting = s.isTransmitting ∧
    (okOff = true → (setParameterPre okOff okStop s).devTransmitting = false) := by
  cases okOff <;> cases okStop <;> simp [setParameterPre]

/-- C4: the claim asserts that after applying BusSpeed to a transmitting
device, the handle's transmission state is off.  In the source the preamble
(lines 66-67) commands the device off through the raw driver call but never
updates the member flag `isTransmitting`, so the handle still records itself
as transmitting after the call returns. -/
theorem C4_counterexample :
    ¬ ((setParameter true true [(Param.busSpeed, true)]
          ⟨true, true, false, true, true, 0, 0⟩).state.isTransmitting = false) := by
  decide

/-- C4 (amended): every setParameter call makes the transmission-off and
capture-stop driver calls before any parameter is applied (the trace starts
with those two events), and when the transmission-off call succeeds the
device-side transmission is off when the call returns; but the handle's
`isTransmitting` flag is never updated and keeps its previous value. -/
theorem C4_amended_thm (okStop : Bool) (ps : List (Param × Bool)) (s : CamState) :
    (setParameter true okStop ps s).trace.take 2 = [Ev.setTransOff, Ev.captureStop] ∧
    (setParameter true okStop ps s).state.devTransmitting = false ∧
    (setParameter true okStop ps s).state.isTransmitting = s.isTransmitting := by
  refine ⟨rfl, ?_, ?_⟩
  · exact ((applyParams_flags ps (setParameterPre true okStop s)).1).trans
      ((setParameterPre_fields true okStop s).2.2.2 rfl)
  · exact ((applyParams_flags ps (setParameterPre true okStop s)).2.1).trans
      (setParameterPre_fields true okStop s).2.2.1

/-- The freeCount behaviour of the parameter loop on its failure exits: a
BusSpeed failure does not release the device resource, a Resolution or
FrameRate failure releases it exactly once. -/
theorem applyParams_free (ps : List (Param × Bool)) (s : CamState) :
    ((applyParams ps s).error = some CamError.busSpeedFailed →
      (applyParams ps s).state.freeCount = s.freeCount) ∧
    ((applyParams ps s).error = some CamError.resolutionFailed ∨
     (applyParams ps s).error = some CamError.frameRateFailed →
      (applyParams ps s).state.freeCount = s.freeCount + 1) := by
  induction ps with
  | nil => simp [applyParams]
  | cons hd tl ih =>
    obtain ⟨p, ok⟩ := hd
    cases p <;> cases ok <;> simp [applyParams, freeCamera] <;> exact ih

/-- C5: if setParameter fails on BusSpeed the device resource is not
released and the open flag is untouched; if it fails on Resolution or
FrameRate the device resource is released exactly once (the same
`freeCamera` step close performs) before the throw. -/
theorem C5_thm (okOff okStop : Bool) (ps : List (Param × Bool)) (s : CamState) :
    ((setParameter okOff okStop ps s).error = some CamError.busSpeedFailed →
      (setParameter okOff okStop ps s).state.freeCount = s.freeCount ∧
      (setParameter okOff okStop ps s).state.isDeviceOpened = s.isDeviceOpened) ∧
    ((setParameter okOff okStop ps s).error = some CamError.resolutionFailed ∨
     (setParameter okOff okStop ps s).error = some CamError.frameRateFailed →
      (setParameter okOff okStop ps s).state.freeCount = s.freeCount + 1) := by
  have hf := applyParams_free ps (setParameterPre okOff okStop s)
  have hfl := applyParams_flags ps (setParameterPre okOff okStop s)
  have hp := setParameterPre_fields okOff okStop s
  refine ⟨fun h => ⟨?_, ?_⟩, fun h => ?_⟩
  · exact (hf.1 h).trans hp.1
  · exact hfl.2.2.2.trans hp.2.1
  · exact (hf.2 h).trans (by rw [hp.1])

/-- Witness for C5 at a concrete open handle failing on Resolution. -/
theorem C5_witness :
    (setParameter true true [(Param.resolution, false)]
        ⟨true, false, false, false, false, 0, 0⟩).error
      = some CamError.resolutionFailed ∧
    (setParameter true true [(Param.resolution, false)]
        ⟨true, false, false, false, false, 0, 0⟩).state.freeCount
      = (⟨true, false, false, false, false, 0, 0⟩ : CamState).freeCount + 1 :=
  ⟨by decide,
   (C5_thm true true [(Param.resolution, false)]
      ⟨true, false, false, false, false, 0, 0⟩).2 (Or.inl (by decide))⟩

/-- On a state whose open flag is still set, close (with succeeding teardown
calls) invokes the native release exactly once more, whether or not the
camera believes itself transmitting. -/
theorem close_opened (t : CamState) (h : t.isDeviceOpened = true) :
    (close true true t).state.freeCount = t.freeCount + 1 := by
  cases hT : t.isTransmitting <;>
    simp [close, stopAcquisition, stopTransmission, freeCamera, hT, h]

/-- C8: with the teardown driver calls succeeding, close is idempotent: the
first call returns without error, the second call returns without error,
changes nothing and makes no driver call, the native release happens at most
once across both calls, and when the device was transmitting (and open) the
first call stops capture and transmission before releasing. -/
theorem C8_thm (s : CamState) :
    (close true true s).error = none ∧
    (close true true (close true true s).state).error = none ∧
    (close true true (close true true s).state).state = (close true true s).state ∧
    (close true true (close true true s).state).trace = [] ∧
    (close true true (close true true s).state).state.freeCount ≤ s.freeCount + 1 ∧
    (s.isTransmitting = true → s.isDeviceOpened = true →
      (close true true s).trace = [Ev.captureStop, Ev.setTransOff, Ev.cameraFree]) := by
  obtain ⟨o, t, cv, dt, dcs, fc, out⟩ := s
  cases t <;> cases o <;>
    simp [close, stopAcquisition, stopTransmission, freeCamera]

/-- Witness for C8 at a concrete open, transmitting handle. -/
theorem C8_witness :
    (close true true (⟨true, true, false, true, true, 0, 0⟩ : CamState)).error = none ∧
    (close true true (⟨true, true, false, true, true, 0, 0⟩ : CamState)).trace
      = [Ev.captureStop, Ev.setTransOff, Ev.cameraFree] :=
  ⟨(C8_thm ⟨true, true, false, true, true, 0, 0⟩).1,
   (C8_thm ⟨true, true, false, true, true, 0, 0⟩).2.2.2.2.2 (by decide) (by decide)⟩

/-- C10: each error path that releases the device resource outside close —
setParameter failing on Resolution, setParameter failing on FrameRate,
startAcquisition failing at capture setup, startAcquisition failing at
transmission start, grabFrame failing at dequeue, grabFrame failing at
enqueue — leaves `isDeviceOpened` set and `freeCount` incremented, so the
close that follows (for instance from the destructor) releases the
already-released handle a second time: two releases in total. -/
theorem C10_thm (s : CamState) (h : s.isDeviceOpened = true) :
    ((setParameter true true [(Param.resolution, false)] s).state.isDeviceOpened = true ∧
     (setParameter true true [(Param.resolution, false)] s).state.freeCount = s.freeCount + 1 ∧
     (close true true (setParameter true true [(Param.resolution, false)] s).state).state.freeCount
        = s.freeCount + 2) ∧
    ((setParameter true true [(Param.frameRate, false)] s).state.isDeviceOpened = true ∧
     (setParameter true true [(Param.frameRate, false)] s).state.freeCount = s.freeCount + 1 ∧
     (close true true (setParameter true true [(Param.frameRate, false)] s).state).state.freeCount
        = s.freeCount + 2) ∧
    ((startAcquisition false true true true s).state.isDeviceOpened = true ∧
     (startAcquisition false true true true s).state.freeCount = s.freeCount + 1 ∧
     (close true true (startAcquisition false true true true s).state).state.freeCount
        = s.freeCount + 2) ∧
    ((startAcquisition true false true true s).state.isDeviceOpened = true ∧
     (startAcquisition true false true true s).state.freeCount = s.freeCount + 1 ∧
     (close true true (startAcquisition true false true true s).state).state.freeCount
        = s.freeCount + 2) ∧
    ((grabFrame false true true true s).state.isDeviceOpened = true ∧
     (grabFrame false true true true s).state.freeCount = s.freeCount + 1 ∧
     (close true true (grabFrame false true true true s).state).state.freeCount
        = s.freeCount + 2) ∧
    ((grabFrame true false true true s).state.isDeviceOpened = true ∧
     (grabFrame true false true true s).state.freeCount = s.freeCount + 1 ∧
     (close true true (grabFrame true false true true s).state).state.freeCount
        = s.freeCount + 2) := by
  refine ⟨⟨h, rfl, ?_⟩, ⟨h, rfl, ?_⟩, ⟨h, rfl, ?_⟩, ⟨h, rfl, ?_⟩, ⟨h, rfl, ?_⟩, ⟨h, rfl, ?_⟩⟩ <;>
    exact close_opened _ h

/-- Witness for C10: a concrete opened handle on the failing-dequeue path of
grabFrame ends with the resource released twice after close. -/
theorem C10_witness :
    (⟨true, false, false, false, false, 0, 0⟩ : CamState).isDeviceOpened = true ∧
    (close true true
        (grabFrame false true true true
          (⟨true, false, false, false, false, 0, 0⟩ : CamState)).state).state.freeCount
      = (⟨true, false, false, false, false, 0, 0⟩ : CamState).freeCount + 2 :=
  ⟨by decide,
   (C10_thm ⟨true, false, false, false, false, 0, 0⟩ (by decide)).2.2.2.2.1.2.2⟩

/-- Once the worker has exited the thread function it stays exited, and no
step of any schedule can produce a sink call any more. -/
theorem run_exited (sched : List Bool) (c : Cfg) (h : c.wpc = WPC.exited) :
    (run sched c).1.wpc = WPC.exited ∧
    ((run sched c).2.all (fun l => l != Lbl.sink)) = true := by
  induction sched generalizing c with
  | nil => exact ⟨h, rfl⟩
  | cons b rest ih =>
    obtain ⟨f, w, m⟩ := c
    cases w with
    | check => exact absurd h (by simp)
    | showing => exact absurd h (by simp)
    | exited =>
      cases b with
      | true => exact ih ⟨f, WPC.exited, m⟩ rfl
      | false =>
        cases m with
        | clearFlag => exact ih ⟨false, WPC.exited, MPC.joinW⟩ rfl
        | joinW => exact ih ⟨f, WPC.exited, MPC.returned⟩ rfl
        | returned => exact ih ⟨f, WPC.exited, MPC.returned⟩ rfl

/-- In every interleaving that starts with the join invariant (stop has
returned only if the worker has exited), the invariant is preserved and no
sink call occurs after stop returns. -/
theorem run_noSink (sched : List Bool) (c : Cfg)
    (h : c.mpc = MPC.returned → c.wpc = WPC.exited) :
    noSinkAfterRet (run sched c).2 = true ∧
    ((run sched c).1.mpc = MPC.returned → (run sched c).1.wpc = WPC.exited) := by
  induction sched generalizing c with
  | nil => exact ⟨rfl, h⟩
  | cons b rest ih =>
    obtain ⟨f, w, m⟩ := c
    cases b with
    | true =>
      cases w with
      | check =>
        cases f with
        | true => exact ih ⟨true, WPC.showing, m⟩ (fun hr => absurd (h hr) (by simp))
        | false => exact ih ⟨false, WPC.exited, m⟩ (fun _ => rfl)
      | showing => exact ih ⟨f, WPC.check, m⟩ (fun hr => absurd (h hr) (by simp))
      | exited => exact ih ⟨f, WPC.exited, m⟩ h
    | false =>
      cases m with
      | clearFlag => exact ih ⟨false, w, MPC.joinW⟩ (fun hr => absurd hr (by simp))
      | joinW =>
        cases w with
        | check => exact ih ⟨f, WPC.check, MPC.joinW⟩ (fun hr => absurd hr (by simp))
        | showing => exact ih ⟨f, WPC.showing, MPC.joinW⟩ (fun hr => absurd hr (by simp))
        | exited =>
          have hrest := run_exited rest ⟨f, WPC.exited, MPC.returned⟩ rfl
          exact ⟨hrest.2, fun _ => hrest.1⟩
      | returned =>
        cases w with
        | check => exact absurd (h rfl) (by simp)
        | showing => exact absurd (h rfl) (by simp)
        | exited => exact ih ⟨f, WPC.exited, MPC.returned⟩ (fun _ => rfl)

/-- C9: in the interleaving model of `grabVideo` (worker) and
`stopCaptureVideo` (control thread), for every schedule started in a
configuration satisfying the join invariant, `stopCaptureVideo` has returned
only if the worker has exited the loop, and no call to the sink's showImage
occurs after the return of `stopCaptureVideo` in the observed label
sequence. -/
theorem C9_thm (sched : List Bool) (c : Cfg)
    (h : c.mpc = MPC.returned → c.wpc = WPC.exited) :
    noSinkAfterRet (run sched c).2 = true ∧
    ((run sched c).1.mpc = MPC.returned → (run sched c).1.wpc = WPC.exited) :=
  run_noSink sched c h

/-- Witness for C9: a concrete schedule from the initial configuration in
which the worker performs a sink call, the control thread then clears the
flag, the worker observes it and exits, and the join completes. -/
theorem C9_witness :
    (init.mpc = MPC.returned → init.wpc = WPC.exited) ∧
    (noSinkAfterRet (run [true, true, false, true, false] init).2 = true ∧
     ((run [true, true, false, true, false] init).1.mpc = MPC.returned →
      (run [true, true, false, true, false] init).1.wpc = WPC.exited)) :=
  ⟨by decide, C9_thm [true, true, false, true, false] init (by decide)⟩
